import Mathlib

/-
Verification development for the remote-execution orchestration layer of the
fastapi/ansible gateway (source files: util/ansible_api.py, main.py).

The Python source is shallowly embedded below: strings are `List Char` /
`String`, dictionaries are association lists, raised exceptions become
`Option` / `Except` results, and the control flow of try/except/finally is
made explicit.  Each definition carries a comment pointing at the source
lines it embeds.
-/

set_option maxRecDepth 10000

/-! ## Variable Safety Filter (util/ansible_api.py lines 27-43 and 257-276)

`AnsibleAPI.check_ansible_variable(content)`:

  content = content.replace('vars:', '+++')
  content = content.replace('vars_files:', '+++')
  pattern = re.compile(r'^[\S\s]*?(?P<ansible>[\S\s]?(name1|...|name15)[\S\s]?)[\S\s]*$', re.I)
  res = pattern.search(content)
  if res: info = res.groupdict()['ansible'].strip()
          if info.startswith('=') or info.startswith('{'): info = info[1:]
          if info.endswith('}'): info = info[:-1]
          if info in ANSIBLE_DENY_VARIBLE_LISTS: return True, info
  return False, None

The regex is embedded exactly: the lazy `[\S\s]*?` walks positions k = 0,1,...
looking for the first position where the named group can match; inside the
group the greedy optional `[\S\s]?` first tries to consume one character (so a
deny-name occurrence at position k+1 is tried before one at k), then the
alternation tries the deny names in list order as case-insensitive literals,
then a greedy optional trailing character is taken.  `[\S\s]` matches any
character, so the trailing `[\S\s]*$` always succeeds and the first group
found is the one the regex yields.
-/

/-- Source: ANSIBLE_DENY_VARIBLE_LISTS, util/ansible_api.py lines 27-43
(the source's spelling of the name is kept). -/
def ANSIBLE_DENY_VARIBLE_LISTS : List String :=
  ["vars",
   "hostvars",
   "ansible_ssh_pass",
   "ansible_password",
   "ansible_ssh_private_key_file",
   "ansible_private_key_file",
   "ansible_become_pass",
   "ansible_become_password",
   "ansible_enable_pass",
   "ansible_pass",
   "ansible_sudo_pass",
   "ansible_sudo_password",
   "ansible_su_pass",
   "ansible_su_password",
   "vault_password"]

/-- The deny list as character lists. -/
def denyNamesC : List (List Char) := ANSIBLE_DENY_VARIBLE_LISTS.map String.data

/-- Case-sensitive character comparison (Python `str.replace`, `==`). -/
def chEqCS (a b : Char) : Bool := a == b

/-- Case-insensitive character comparison (the regex is compiled with re.I). -/
def chEqCI (a b : Char) : Bool := a.toLower == b.toLower

/-- Test whether the literal `p` matches at the front of `l`,
character comparison given by `eqf`. -/
def matchFront (eqf : Char → Char → Bool) : List Char → List Char → Bool
  | [], _ => true
  | _ :: _, [] => false
  | p :: ps, c :: cs => eqf p c && matchFront eqf ps cs

/-- First deny-list name (in list order, as in the regex alternation) that
matches case-insensitively at the front of `l`. -/
def firstDeny (l : List Char) : Option (List Char) :=
  denyNamesC.find? (fun n => matchFront chEqCI n l)

/-- The regex group `[\S\s]?(alternation)[\S\s]?` attempted at the head of
`l` (the position the lazy prefix has advanced to).  The greedy leading
optional first consumes one character and tries the alternation after it;
on failure it retries with the alternation at the head itself.  The matched
text (actual characters of the content, case preserved) is returned. -/
def groupHere (l : List Char) : Option (List Char) :=
  match l with
  | [] => none
  | c :: rest =>
    match firstDeny rest with
    | some n => some (c :: List.take (n.length + 1) rest)
    | none =>
      match firstDeny (c :: rest) with
      | some n => some (List.take (n.length + 1) (c :: rest))
      | none => none

/-- Model of pattern.search(content): the lazy `^[\S\s]*?` tries each start position
left to right; the first position where the group matches wins. -/
def scanGroup : List Char → Option (List Char)
  | [] => none
  | c :: rest =>
    match groupHere (c :: rest) with
    | some g => some g
    | none => scanGroup rest

/-- Python `str.isspace` for the ASCII range (used by `str.strip()`). -/
def isPySpace (c : Char) : Bool :=
  c == ' ' || c == '\t' || c == '\n' || c == '\r' || c == '\x0b' || c == '\x0c'

/-- Python `str.strip()`. -/
def pyStrip (l : List Char) : List Char :=
  ((l.dropWhile isPySpace).reverse.dropWhile isPySpace).reverse

/-- Lines 269-273: strip, drop one leading '=' or '\x7b', drop one trailing
'\x7d'. -/
def cleanToken (g : List Char) : List Char :=
  let s := pyStrip g
  let s2 := match s with
    | c :: t => if c == '=' || c == '\x7b' then t else c :: t
    | [] => []
  if s2.getLast? = some '\x7d' then s2.dropLast else s2

/-- Python `str.replace(pat, rep)` (non-overlapping, left to right), with a
fuel argument bounded by the length of the scanned list so that the
definition is structural and kernel-evaluable. -/
def replaceAllF (pat rep : List Char) : Nat → List Char → List Char
  | 0, _ => []
  | _ + 1, [] => []
  | f + 1, c :: rest =>
    if matchFront chEqCS pat (c :: rest)
    then rep ++ replaceAllF pat rep f (List.drop (pat.length - 1) rest)
    else c :: replaceAllF pat rep f rest

/-- Python `str.replace(pat, rep)`. -/
def replaceAll (pat rep l : List Char) : List Char :=
  replaceAllF pat rep l.length l

/-- Holds when no occurrence of `pat` (case-sensitive) starts
inside the `xs` part of `xs ++ ys`. -/
def noMatchIn (pat : List Char) : List Char → List Char → Bool
  | [], _ => true
  | c :: rest, ys => !matchFront chEqCS pat ((c :: rest) ++ ys) && noMatchIn pat rest ys

/-- Holds when some occurrence of `pat` (case-sensitive) lies inside
`l`. -/
def occursCS (pat l : List Char) : Bool := !noMatchIn pat l []

/-- Holds when no deny-list name occurs (case-insensitively) anywhere in
`l`. -/
def denyFreeB : List Char → Bool
  | [] => true
  | c :: rest => (firstDeny (c :: rest)).isNone && denyFreeB rest

/-- AnsibleAPI.check_ansible_variable (util/ansible_api.py lines 257-276),
on character lists: replace the two playbook keywords, search the regex,
clean the matched token, test deny-list membership. -/
def checkChars (content : List Char) : Bool × Option (List Char) :=
  match scanGroup (replaceAll "vars_files:".data "+++".data
                     (replaceAll "vars:".data "+++".data content)) with
  | none => (false, none)
  | some g =>
    if cleanToken g ∈ denyNamesC then (true, some (cleanToken g)) else (false, none)

/-- AnsibleAPI.check_ansible_variable on strings. -/
def check_ansible_variable (content : String) : Bool × Option String :=
  match checkChars content.data with
  | (b, some l) => (b, some (String.mk l))
  | (b, none) => (b, none)

/-- The characters of "ansible_ssh_pass" (deny-list entry number 3). -/
def passC : List Char := "ansible_ssh_pass".data

/-! ## Result Collector (CallbackModule, util/ansible_api.py lines 47-75)
and get_result (lines 691-703)

The callback keeps three ordered buckets of outcome records plus a global
error string.  Result payloads are JSON-like values. -/

/-!
A JSON-like value (the raw per-task result payloads handled by the
callback and the facts summarizer).  Arrays and objects are mutual
inductives so that all recursion over them is structural.
-/
mutual
inductive JVal where
  | str : String → JVal
  | num : Int → JVal
  | bool : Bool → JVal
  | null : JVal
  | arr : JArr → JVal
  | obj : JObj → JVal
inductive JArr where
  | nil : JArr
  | cons : JVal → JArr → JArr
inductive JObj where
  | nil : JObj
  | cons : String → JVal → JObj → JObj
end

/-- Build a JSON array value from a list. -/
def JArrOf : List JVal → JArr
  | [] => JArr.nil
  | x :: xs => JArr.cons x (JArrOf xs)

/-- Build a JSON object value from an association list (Python dicts keep
insertion order). -/
def JObjOf : List (String × JVal) → JObj
  | [] => JObj.nil
  | (k, v) :: rest => JObj.cons k v (JObjOf rest)

/-- The association list of a JSON object (`dict.items()`). -/
def JObj.toList : JObj → List (String × JVal)
  | JObj.nil => []
  | JObj.cons k v rest => (k, v) :: JObj.toList rest

/-- Python `d[k]` on a JSON object: the first binding of `k`. -/
def JObj.get : JObj → String → Option JVal
  | JObj.nil, _ => none
  | JObj.cons k v rest, key => if k = key then some v else JObj.get rest key

/-- Lowercase hexadecimal digit (as produced by Python's json \uXXXX
escapes). -/
def hexDigit (n : Nat) : Char :=
  if n < 10 then Char.ofNat (48 + n) else Char.ofNat (87 + n)

/-- Four hexadecimal digits. -/
def hex4 (n : Nat) : List Char :=
  [hexDigit (n / 4096 % 16), hexDigit (n / 256 % 16), hexDigit (n / 16 % 16), hexDigit (n % 16)]

/-- Python json.dumps escaping of one character (default ensure_ascii=True). -/
def jEscapeChar (c : Char) : List Char :=
  if c == '"' then ['\\', '"']
  else if c == '\\' then ['\\', '\\']
  else if c == '\n' then ['\\', 'n']
  else if c == '\t' then ['\\', 't']
  else if c == '\r' then ['\\', 'r']
  else if c == '\x08' then ['\\', 'b']
  else if c == '\x0c' then ['\\', 'f']
  else if c.val < 0x20 || (0x7f ≤ c.val && c.val < 0x10000) then '\\' :: 'u' :: hex4 c.toNat
  else if 0x10000 ≤ c.val then
    '\\' :: 'u' :: hex4 (0xd800 + (c.toNat - 0x10000) / 0x400) ++
      ('\\' :: 'u' :: hex4 (0xdc00 + (c.toNat - 0x10000) % 0x400))
  else [c]

/-- Python json.dumps of a string. -/
def jString (s : String) : List Char :=
  '"' :: s.data.foldr (fun c acc => jEscapeChar c ++ acc) ['"']

/-!
Python json.dumps with the default separators (', ' between items,
': ' between a key and its value), mutually over values, arrays and
objects.
-/
mutual
def jdumpC : JVal → List Char
  | JVal.str s => jString s
  | JVal.num n => (toString n).data
  | JVal.bool b => cond b "true".data "false".data
  | JVal.null => "null".data
  | JVal.arr xs => '[' :: (jdumpArr xs ++ [']'])
  | JVal.obj fs => '\x7b' :: (jdumpObj fs ++ ['\x7d'])
def jdumpArr : JArr → List Char
  | JArr.nil => []
  | JArr.cons x JArr.nil => jdumpC x
  | JArr.cons x (JArr.cons y rest) => jdumpC x ++ ',' :: ' ' :: jdumpArr (JArr.cons y rest)
def jdumpObj : JObj → List Char
  | JObj.nil => []
  | JObj.cons k v JObj.nil => jString k ++ ':' :: ' ' :: jdumpC v
  | JObj.cons k v (JObj.cons k2 v2 rest) =>
    jString k ++ ':' :: ' ' :: jdumpC v ++ ',' :: ' ' :: jdumpObj (JObj.cons k2 v2 rest)
end

/-- Python json.dumps. -/
def jdump (v : JVal) : String := String.mk (jdumpC v)

/-- One outcome event as appended by the callback: a dict
  \x7b'host': ..., 'task_name': ..., 'result': ..., 'success': ..., 'msg': ...\x7d. -/
structure OutcomeRec where
  host : String
  task_name : String
  result : JVal
  success : Bool
  msg : String

/-- The dict the callback appends, in source key order (lines 57-58, 62-63,
68-69). -/
def outcomeJson (r : OutcomeRec) : JVal :=
  JVal.obj (JObjOf
    [("host", JVal.str r.host), ("task_name", JVal.str r.task_name),
     ("result", r.result), ("success", JVal.bool r.success), ("msg", JVal.str r.msg)])

/-- CallbackModule state: three buckets plus the global error string. -/
structure CbState where
  host_ok : List OutcomeRec
  host_failed : List OutcomeRec
  host_unreachable : List OutcomeRec
  error : String

/-- CallbackModule.__init__ (lines 48-53). -/
def CallbackModule_init : CbState := ⟨[], [], [], ""⟩

/-- v2_runner_on_ok (lines 60-63). -/
def v2_runner_on_ok (cb : CbState) (host task : String) (result : JVal) : CbState :=
  ⟨cb.host_ok ++ [⟨host, task, result, true, "ok"⟩],
   cb.host_failed, cb.host_unreachable, cb.error⟩

/-- v2_runner_on_failed (lines 66-69). -/
def v2_runner_on_failed (cb : CbState) (host task : String) (result : JVal) : CbState :=
  ⟨cb.host_ok, cb.host_failed ++ [⟨host, task, result, false, "failed"⟩],
   cb.host_unreachable, cb.error⟩

/-- v2_runner_on_unreachable (lines 55-58). -/
def v2_runner_on_unreachable (cb : CbState) (host task : String) (result : JVal) : CbState :=
  ⟨cb.host_ok, cb.host_failed,
   cb.host_unreachable ++ [⟨host, task, result, false, "unreachable"⟩], cb.error⟩

/-- v2_playbook_on_no_hosts_matched (lines 71-72). -/
def v2_playbook_on_no_hosts_matched (cb : CbState) : CbState :=
  ⟨cb.host_ok, cb.host_failed, cb.host_unreachable, "skipping: No match hosts."⟩

/-- get_res (lines 74-75). -/
def get_res (cb : CbState) : List OutcomeRec × List OutcomeRec × List OutcomeRec × String :=
  (cb.host_ok, cb.host_failed, cb.host_unreachable, cb.error)

/-- AnsibleAPI.get_result (lines 691-703).  Each branch is
`[json.dumps(i) for i in X][0]` guarded by the truthiness of X: for the three
list buckets this is json.dumps of the first record; for the string `error`
the comprehension iterates over the CHARACTERS of the string, so the code
returns the JSON encoding of the first character of the error message.  When
everything is empty the function falls through and returns None. -/
def get_result (cb : CbState) : Option String :=
  match cb.host_ok with
  | r :: _ => some (jdump (outcomeJson r))
  | [] =>
    match cb.host_failed with
    | r :: _ => some (jdump (outcomeJson r))
    | [] =>
      match cb.host_unreachable with
      | r :: _ => some (jdump (outcomeJson r))
      | [] =>
        match cb.error.data with
        | c :: _ => some (jdump (JVal.str (String.mk [c])))
        | [] => none

/-! ## Host Record (BaseHost, util/ansible_api.py lines 79-139) and
Inventory Builder (BaseInventory, lines 143-186)

A host descriptor is the incoming dict; optional fields model `.get`
results.  The host's variable dict is an insertion-ordered association list
and `set_variable` is dict assignment (update in place, else append). -/

/-- A host-variable value (string, int or bool as set by BaseHost). -/
inductive AVal where
  | s : String → AVal
  | n : Int → AVal
  | b : Bool → AVal
deriving DecidableEq

/-- Line 25: ANSIBLE_CONNECTION_TYPE = 'paramiko'. -/
def ANSIBLE_CONNECTION_TYPE : String := "paramiko"

/-- The descriptor's `become` sub-dict (keys method/user/pass). -/
structure Become where
  method : Option String
  user : Option String
  pass : Option String
deriving DecidableEq

/-- Python truthiness of the become dict: an empty dict is falsy. -/
def Become.truthy (b : Become) : Bool :=
  b.method.isSome || b.user.isSome || b.pass.isSome

/-- One host descriptor (the host_data dict).  `ip` is required (line 104
indexes host_data['ip'] directly).  `port` is optional because line 105
indexes host_data['port'] directly and a missing key raises KeyError, which
the embedding surfaces as `none` from BaseHost_init.  `hostname` is
optional for the same reason: BaseHost.__init__ reads it with .get (line
86, ip fallback), but parse_sources line 172 indexes host_data['hostname']
directly, so a descriptor without the key aborts the inventory build with
KeyError — surfaced as `none` from parse_step. -/
structure HostData where
  hostname : Option String
  ip : String
  port : Option Int
  username : Option String
  password : Option String
  private_key : Option String
  become : Option Become
  groups : List String
  vars : List (String × AVal)
deriving DecidableEq

/-- Python truthiness of an optional string (None and "" are falsy). -/
def truthyStr : Option String → Bool
  | none => false
  | some s => !(s = "")

/-- Dict assignment `m[k] = v` on an insertion-ordered association list. -/
def setVar : List (String × AVal) → String → AVal → List (String × AVal)
  | [], k, v => [(k, v)]
  | (k2, v2) :: rest, k, v =>
    if k2 = k then (k2, v) :: rest else (k2, v2) :: setVar rest k v

/-- Dict lookup `m.get(k)`. -/
def getVar : List (String × AVal) → String → Option AVal
  | [], _ => none
  | (k2, v2) :: rest, k => if k2 = k then some v2 else getVar rest k

/-- Line 86: hostname = host_data.get('hostname') or host_data.get('ip'). -/
def resolvedName (d : HostData) : String :=
  match d.hostname with
  | some h => if h = "" then d.ip else h
  | none => d.ip

/-- Line 87: port = host_data.get('port') or 22 (0 is falsy). -/
def resolvedPort (d : HostData) : Int :=
  match d.port with
  | some p => if p = 0 then 22 else p
  | none => 22

/-- Lines 96-105: connection type, ssh-only tuning (statically skipped under
paramiko), host-key checking, address and raw port. -/
def coreVars (d : HostData) (p : Int) : List (String × AVal) :=
  let v0 := setVar [] "ansible_connection" (AVal.s ANSIBLE_CONNECTION_TYPE)
  let v1 := if ANSIBLE_CONNECTION_TYPE = "ssh"
            then setVar v0 "ansible_ssh_args"
              (AVal.s "-C -o ControlMaster=auto -o ControlPersist=60s")
            else v0
  let v2 := setVar v1 "ansible_ssh_host_key_checking" (AVal.b false)
  let v3 := setVar v2 "ansible_host" (AVal.s d.ip)
  setVar v3 "ansible_port" (AVal.n p)

/-- Lines 107-118: user, password, private key, ssh pipelining (ssh only). -/
def credVars (d : HostData) (m : List (String × AVal)) : List (String × AVal) :=
  let v1 := if truthyStr d.username
            then setVar m "ansible_user" (AVal.s (d.username.getD "")) else m
  let v2 := if truthyStr d.password
            then setVar v1 "ansible_ssh_pass" (AVal.s (d.password.getD "")) else v1
  let v3 := if truthyStr d.private_key
            then setVar v2 "ansible_ssh_private_key_file" (AVal.s (d.private_key.getD ""))
            else v2
  if ANSIBLE_CONNECTION_TYPE = "ssh"
  then setVar v3 "ansible_ssh_pipelining" (AVal.b true) else v3

/-- Lines 120-132: become support (method defaults to sudo, user to root,
pass to the empty string; escalation explicitly disabled otherwise). -/
def becomeVars (d : HostData) (m : List (String × AVal)) : List (String × AVal) :=
  match d.become with
  | some b =>
    if b.truthy then
      let v1 := setVar m "ansible_become" (AVal.b true)
      let v2 := setVar v1 "ansible_become_method" (AVal.s (b.method.getD "sudo"))
      let v3 := if b.method.getD "sudo" = "sudo"
                then (if ANSIBLE_CONNECTION_TYPE = "ssh"
                      then setVar v2 "ansible_ssh_pipelining" (AVal.b false) else v2)
                else v2
      let v4 := setVar v3 "ansible_become_user" (AVal.s (b.user.getD "root"))
      setVar v4 "ansible_become_pass" (AVal.s (b.pass.getD ""))
    else setVar m "ansible_become" (AVal.b false)
  | none => setVar m "ansible_become" (AVal.b false)

/-- BaseHost.__set_required_variables (lines 92-132), given the raw port
value. -/
def set_required_variables (d : HostData) (p : Int) : List (String × AVal) :=
  becomeVars d (credVars d (coreVars d p))

/-- BaseHost.__set_extra_variables (lines 134-136): every extra variable is
written last, over whatever was there. -/
def set_extra_variables (d : HostData) (m : List (String × AVal)) : List (String × AVal) :=
  d.vars.foldl (fun acc kv => setVar acc kv.1 kv.2) m

/-- The constructed host record: name, port and variable dict. -/
structure HostRec where
  name : String
  port : Int
  hvars : List (String × AVal)
deriving DecidableEq

/-- BaseHost.__init__ (lines 84-90) when the port key is present. -/
def BaseHost_build (d : HostData) (p : Int) : HostRec :=
  ⟨resolvedName d, resolvedPort d, set_extra_variables d (set_required_variables d p)⟩

/-- BaseHost.__init__ (lines 84-90); `none` is the KeyError from the direct
host_data['port'] access on line 105. -/
def BaseHost_init (d : HostData) : Option HostRec :=
  match d.port with
  | none => none
  | some p => some (BaseHost_build d p)

/-- ansible Group.add_host (library collaborator): appends unless a host
with the same name is already a member, so groups are duplicate-free by
name. -/
def addHost (g : List HostRec) (h : HostRec) : List HostRec :=
  if h.name ∈ g.map HostRec.name then g else g ++ [h]

/-- Generic dict assignment for the other inventory maps. -/
def assocSet {κ ν : Type} [DecidableEq κ] : List (κ × ν) → κ → ν → List (κ × ν)
  | [], k, v => [(k, v)]
  | (k2, v2) :: rest, k, v =>
    if k2 = k then (k2, v) :: rest else (k2, v2) :: assocSet rest k v

/-- Generic dict lookup. -/
def assocGet {κ ν : Type} [DecidableEq κ] : List (κ × ν) → κ → Option ν
  | [], _ => none
  | (k2, v2) :: rest, k => if k2 = k then some v2 else assocGet rest k

/-- Lines 175-180: fetch the named group, auto-creating it when unseen, and
add the host to it. -/
def addToNamed (gs : List (String × List HostRec)) (gname : String) (h : HostRec) :
    List (String × List HostRec) :=
  match assocGet gs gname with
  | some members => assocSet gs gname (addHost members h)
  | none => gs ++ [(gname, addHost [] h)]

/-- The in-memory inventory: the special groups "all" and "ungrouped", the
named groups, and the hosts map (line 172 keys it by the direct index
host_data['hostname']). -/
structure InvState where
  allGroup : List HostRec
  ungrouped : List HostRec
  namedGroups : List (String × List HostRec)
  hostsMap : List (String × HostRec)

/-- The fresh inventory (groups "all" and "ungrouped" exist and are empty). -/
def InvState.initial : InvState := ⟨[], [], [], []⟩

/-- The per-descriptor body of BaseInventory.parse_sources (lines 170-183)
once the hostname key `hn` was read: record the host in the hosts map, add
it to its named groups or to "ungrouped", and always add it to "all". -/
def parse_step_state (st : InvState) (d : HostData) (hn : String) (h : HostRec) : InvState :=
  ⟨addHost st.allGroup h,
   (match d.groups with
    | [] => addHost st.ungrouped h
    | _ :: _ => st.ungrouped),
   (match d.groups with
    | [] => st.namedGroups
    | gs => gs.foldl (fun acc gname => addToNamed acc gname h) st.namedGroups),
   assocSet st.hostsMap hn h⟩

/-- One iteration of parse_sources; `none` propagates either the KeyError
raised by BaseHost.__init__ on a port-less descriptor (line 105) or the
KeyError raised by the direct index self.hosts[host_data['hostname']] on
line 172 when the descriptor has no hostname key. -/
def parse_step (st : InvState) (d : HostData) : Option InvState :=
  match BaseHost_init d with
  | none => none
  | some h =>
    match d.hostname with
    | none => none
    | some hn => some (parse_step_state st d hn h)

/-- BaseInventory.parse_sources (lines 166-183) over the descriptor list. -/
def parse_sources : InvState → List HostData → Option InvState
  | st, [] => some st
  | st, d :: rest =>
    match parse_step st d with
    | none => none
    | some st2 => parse_sources st2 rest

/-- get_matched_hosts("all") (lines 185-186): resolution of the literal
pattern "all" by the ansible inventory collaborator returns every host,
i.e. the members of the "all" group. -/
def get_matched_hosts_all (st : InvState) : List HostRec := st.allGroup

/-- Deduplication keeping first occurrences (the arrival-order of names into
a duplicate-free group). -/
def dedupKeepFirst (l : List String) : List String :=
  l.foldl (fun acc n => if n ∈ acc then acc else acc ++ [n]) []

/-- Two descriptors that resolve to the same host name "git" (concrete
input used to test duplicate handling). -/
def dsDup : List HostData :=
  [⟨some "git", "192.168.5.2", some 22, some "root", some "pw", none, none, [], []⟩,
   ⟨some "git", "192.168.5.3", some 22, some "root", some "pw2", none, none, [], []⟩]

/-- Two descriptors with distinct resolved names, the second carrying an
empty (falsy) hostname and therefore naming itself by ip fallback
(concrete input used as a witness). -/
def dsTwo : List HostData :=
  [⟨some "git", "192.168.5.2", some 22, some "root", some "pw", none, none, ["g1"], []⟩,
   ⟨some "", "192.168.5.9", some 22, none, none, none, none, [], []⟩]

/-- A descriptor whose extra vars override the connection-critical keys
(concrete input). -/
def dEvil : HostData :=
  ⟨none, "10.0.0.1", some 22, none, none, none, none, [],
   [("ansible_host", AVal.s "evil"), ("ansible_port", AVal.n 9999)]⟩

/-- A descriptor with benign extra vars (concrete input). -/
def dPlain : HostData :=
  ⟨some "web", "10.0.0.2", some 2222, some "root", some "pw", none,
   some ⟨some "sudo", some "root", some "sd"⟩, ["g1"], [("color", AVal.s "blue")]⟩

/-! ## Execution Engine (AnsibleAPI, util/ansible_api.py lines 278-379)

run_playbook (lines 278-347):

  playbook = None
  try:
    read the file; run the Variable Safety Filter on its text;
    if flagged: build a rejection notice — but this branch itself raises an
      AttributeError before the notice is delivered (line 290 reads
      self.results_callback.start_time, an attribute CallbackModule does not
      have, and line 296 evaluates a dict literal's .__dict__, which dicts
      do not have);
    else: construct the PlaybookExecutor and run it
  except Exception: build an error notice — line 313 again reads
    self.results_callback.start_time, so with a callback lacking that
    attribute the handler raises an AttributeError of its own
  finally: if playbook._tqm is not None: playbook._tqm.cleanup()
    — unguarded on `playbook` itself: when the executor was never
    constructed this dereferences None and the AttributeError from the
    finally block replaces any pending exception.  No temp directory is
    removed on this path.

run_module (lines 349-379):

  tqm = None
  try: tqm = TaskQueueManager(...); tqm.run(play)
  except Exception: print(traceback.format_exc())
  finally:
    if tqm is not None: tqm.cleanup()
    shutil.rmtree(C.DEFAULT_LOCAL_TMP, True)   # ignore_errors=True

The models below make the exception dataflow of these try/except/finally
blocks explicit.  Failures of the external collaborators (file open,
Play().load, PlaybookExecutor/TaskQueueManager construction, run) are
oracle booleans; `cbHasAttrs` says whether the callback object carries the
res/start_time attributes the notice paths read (the repository's
CallbackModule does not).  The observables are the exception escaping to
the caller, the number of cleanup() calls the method itself performs, and
whether the temp scratch directory was removed.  Note that in run_module
the statement play = Play().load(play_source, ...) on line 361 sits BEFORE
the try block, and ansible parses the task's action and args eagerly at
load time (Task.load → ModuleArgsParser.parse → parse_kv → split_args), so
a malformed module_args string — e.g. one with an unbalanced quote —
raises AnsibleParserError right there: uncaught, and before any teardown
is reachable.  (The `group` parameter only prints a close notice in the
finally block and is omitted.) -/

/-- Observables of one run_playbook call. -/
structure PBRun where
  raised : Option String
  cleanupCalls : Nat
  tmpdirRemoved : Bool
deriving DecidableEq

/-- Observables of one run_module call. -/
structure RMRun where
  raised : Option String
  cleanupCalls : Nat
  tmpdirRemoved : Bool
deriving DecidableEq

/-- The executor is constructed iff the file was read, the safety filter
did not flag its text, and the constructor did not raise (lines 300-307). -/
def pbConstructed (fileContent : Option String) (ctorRaises : Bool) : Bool :=
  (match fileContent with
   | none => false
   | some content => !(check_ansible_variable content).fst) && !ctorRaises

/-- AnsibleAPI.run_playbook (lines 278-347). -/
def run_playbook (fileContent : Option String) (cbHasAttrs ctorRaises runRaises : Bool) :
    PBRun :=
  let bodyExc : Option String :=
    match fileContent with
    | none => some "FileNotFoundError"
    | some content =>
      if (check_ansible_variable content).fst then
        some "AttributeError"
      else if ctorRaises then some "PlaybookExecutorError"
      else if runRaises then some "RunError"
      else none
  let pending : Option String :=
    match bodyExc with
    | none => none
    | some _ => if cbHasAttrs then none else some "AttributeError: start_time"
  if pbConstructed fileContent ctorRaises then ⟨pending, 1, false⟩
  else ⟨some "AttributeError: NoneType has no attribute _tqm", 0, false⟩

/-- AnsibleAPI.run_module (lines 349-379).  `loadRaises` is the eager task
parse of line 361 failing: Play().load runs before the try, so its
AnsibleParserError propagates uncaught and neither tqm.cleanup() nor the
rmtree is reached.  Inside the try, any exception from TaskQueueManager
construction or run is caught (lines 373-374: print(traceback)) and the
finally performs the guarded cleanup plus the ignore-errors temp-directory
removal. -/
def run_module (loadRaises ctorRaises runRaises : Bool) : RMRun :=
  if loadRaises then ⟨some "AnsibleParserError", 0, false⟩
  else
    let bodyExc : Option String :=
      if ctorRaises then some "TaskQueueManagerError"
      else if runRaises then some "RunError"
      else none
    let pending : Option String :=
      match bodyExc with
      | some _ => none
      | none => none
    ⟨pending, if ctorRaises then 0 else 1, true⟩

/-! ## Dispatch traces (which entry points invoke the Variable Safety
Filter): run_modules (lines 381-440), run_cmd (442-500), run_script
(502-556), run_copy (558-615), run_module (349-379), run_playbook
(278-347), and main.py's websocket_endpoint (lines 17-38). -/

/-- Events on an execution path: scanning text with the safety filter,
rejecting it, dispatching a module, executing a playbook file. -/
inductive ExecEvent where
  | scan : String → ExecEvent
  | reject : String → ExecEvent
  | dispatchModule : String → String → String → ExecEvent
  | execPlaybook : String → ExecEvent
deriving DecidableEq

/-- run_module (lines 349-379) dispatches the named module with its args
against the host pattern; it never consults the safety filter. -/
def run_module_events (module_name module_args hosts : String) : List ExecEvent :=
  [ExecEvent.dispatchModule module_name module_args hosts]

/-- run_modules (lines 381-440): scan first, then reject or delegate to
run_module with the chosen module name. -/
def run_modules_events (cmds module hosts : String) : List ExecEvent :=
  ExecEvent.scan cmds ::
    (if (check_ansible_variable cmds).fst
     then [ExecEvent.reject ((check_ansible_variable cmds).snd.getD "")]
     else run_module_events module cmds hosts)

/-- run_cmd (lines 442-500): scan, then reject or run the shell module. -/
def run_cmd_events (cmds hosts : String) : List ExecEvent :=
  ExecEvent.scan cmds ::
    (if (check_ansible_variable cmds).fst
     then [ExecEvent.reject ((check_ansible_variable cmds).snd.getD "")]
     else run_module_events "shell" cmds hosts)

/-- run_script (lines 502-556): scan, then reject or run the script
module. -/
def run_script_events (cmds hosts : String) : List ExecEvent :=
  ExecEvent.scan cmds ::
    (if (check_ansible_variable cmds).fst
     then [ExecEvent.reject ((check_ansible_variable cmds).snd.getD "")]
     else run_module_events "script" cmds hosts)

/-- run_copy (lines 558-615): scan, then reject or run the copy module. -/
def run_copy_events (cmds hosts : String) : List ExecEvent :=
  ExecEvent.scan cmds ::
    (if (check_ansible_variable cmds).fst
     then [ExecEvent.reject ((check_ansible_variable cmds).snd.getD "")]
     else run_module_events "copy" cmds hosts)

/-- run_playbook (lines 278-309): scan the playbook file's text, then
reject or execute the playbook. -/
def run_playbook_events (playbook_yml content : String) : List ExecEvent :=
  ExecEvent.scan content ::
    (if (check_ansible_variable content).fst
     then [ExecEvent.reject ((check_ansible_variable content).snd.getD "")]
     else [ExecEvent.execPlaybook playbook_yml])

/-- One websocket request message (main.py lines 23-30): optional fields
model dict.get with the endpoint's defaults. -/
structure WsMsg where
  hostname : Option String
  host : Option String
  port : Option Int
  pass : Option String
  cmd : Option String

/-- main.py websocket_endpoint (lines 17-38): builds a fresh inventory and
callback, then calls run_module("shell", data.get("cmd", "ls -lha /tmp"),
hosts=data.get("hostname", "test")) — the user-supplied cmd string goes to
run_module verbatim, with no safety-filter scan anywhere on the path. -/
def websocket_endpoint_events (m : WsMsg) : List ExecEvent :=
  run_module_events "shell" (m.cmd.getD "ls -lha /tmp") (m.hostname.getD "test")

/-! ## Facts Summarizer (AnsibleAPI.get_server_info, util/ansible_api.py
lines 617-689)

get_server_info runs the setup module (line 621, the run side effect on the
callback), then reshapes every record of the ok bucket.  Nothing in the loop
is guarded: fields read with ['...'] raise KeyError when absent and the
exception propagates out of get_server_info; only the interface address
fields (ipv4 / ipv4_secondaries / ipv6, lines 666-677) fall back to the
string 'unknown', and the other per-interface fields use .get (None when
absent).  The embedding returns `Except String ...`, the error being the
exception.

Python floats only appear in the disk-size arithmetic
(float(...) / round(x, 2) / * 1024, lines 639-646) and in ram/swap
(round(mb/1024), lines 637-638).  These are modelled with exact decimal
arithmetic: `Dec` is mantissa / 10^scale and rounding is round-half-to-even
(CPython's round); for the magnitudes involved this coincides with the
binary-float computation except on representation-error halfway cases,
which no claim depends on. -/

/-- Is an Except value a success? -/
def exceptIsOk {ε α : Type} : Except ε α → Bool
  | Except.ok _ => true
  | Except.error _ => false

/-- An exact decimal number: mant / 10^scale. -/
structure Dec where
  mant : Int
  scale : Nat
deriving DecidableEq

/-- Round-half-to-even of n / k for k > 0 (CPython round()). -/
def halfEvenDiv (n k : Int) : Int :=
  let q := Int.fdiv n k
  let r := n - q * k
  if 2 * r < k then q
  else if k < 2 * r then q + 1
  else if Int.emod q 2 = 0 then q else q + 1

/-- round(d, 2) expressed in hundredths (the exact value times 100). -/
def round2Centi (d : Dec) : Int :=
  if d.scale ≤ 2 then d.mant * (10 : Int) ^ (2 - d.scale)
  else halfEvenDiv d.mant ((10 : Int) ^ (d.scale - 2))

/-- Numeric value of a digit list (most significant first). -/
def digitsVal (l : List Char) : Nat :=
  l.foldl (fun acc c => acc * 10 + (c.toNat - 48)) 0

/-- Python int(string): optional sign then digits (whitespace stripped). -/
def parseIntStr (l : List Char) : Option Int :=
  let l2 := pyStrip l
  let core : List Char → Option Int := fun ds =>
    if ds ≠ [] && ds.all Char.isDigit then some (digitsVal ds : Int) else none
  match l2 with
  | '-' :: ds => (core ds).map (fun n => -n)
  | '+' :: ds => core ds
  | ds => core ds

/-- Python int(value) as used on lines 630-631 and 637-638. -/
def pyInt : JVal → Except String Int
  | JVal.num n => Except.ok n
  | JVal.bool b => Except.ok (cond b 1 0)
  | JVal.str s =>
    match parseIntStr s.data with
    | some n => Except.ok n
    | none => Except.error "ValueError: invalid literal for int()"
  | _ => Except.error "TypeError: int() argument"

/-- Python float(string) for plain decimal literals: optional sign, digits,
optional fractional part (exponent forms are out of the facts format and
map to the same ValueError a malformed string would raise). -/
def parseDecStr (l : List Char) : Option Dec :=
  let core : List Char → Option Dec := fun ds =>
    let ip := ds.takeWhile Char.isDigit
    let rest := ds.dropWhile Char.isDigit
    match rest with
    | [] => if ip ≠ [] then some ⟨(digitsVal ip : Int), 0⟩ else none
    | '.' :: fp =>
      if fp.all Char.isDigit && (ip ≠ [] || fp ≠ []) then
        some ⟨(digitsVal (ip ++ fp) : Int), fp.length⟩
      else none
    | _ => none
  match pyStrip l with
  | '-' :: ds => (core ds).map (fun d => ⟨-d.mant, d.scale⟩)
  | '+' :: ds => core ds
  | ds => core ds

/-- Python float(string). -/
def pyFloat (s : String) : Except String Dec :=
  match parseDecStr s.data with
  | some d => Except.ok d
  | none => Except.error "ValueError: could not convert string to float"

/-- Python str() of a facts value, as used by the '{} {} {}'.format on lines
633-635 (scalar values; containers are approximated by their JSON text,
never reached by the facts fields formatted there). -/
def pyStr : JVal → String
  | JVal.str s => s
  | JVal.num n => toString n
  | JVal.bool b => cond b "True" "False"
  | JVal.null => "None"
  | v => jdump v

/-- The list of a JSON array. -/
def JArr.toList : JArr → List JVal
  | JArr.nil => []
  | JArr.cons x rest => x :: JArr.toList rest

/-- Python v[key] on a JSON value: KeyError when the key is absent,
TypeError when the value is not a dict. -/
def JVal.index (v : JVal) (key : String) : Except String JVal :=
  match v with
  | JVal.obj fs =>
    match JObj.get fs key with
    | some x => Except.ok x
    | none => Except.error ("KeyError: " ++ key)
  | _ => Except.error "TypeError: value is not a dict"

/-- facts[key] (every facts read in get_server_info is a direct index). -/
def factsGet (facts : JObj) (key : String) : Except String JVal :=
  match JObj.get facts key with
  | some v => Except.ok v
  | none => Except.error ("KeyError: " ++ key)

/-- Line 641: k[0:2] in ['sd', 'hd', 'ss', 'vd']. -/
def diskPrefixes : List String := ["sd", "hd", "ss", "vd"]

/-- Python s[0:k] (a negative k counts from the end). -/
def pySliceTo (l : List Char) (k : Int) : List Char :=
  if k < 0 then l.take ((l.length : Int) + k).toNat else l.take k.toNat

/-- Index of the last occurrence of c (str.rindex), tracking positions. -/
def lastIdxOfAux (c : Char) : List Char → Nat → Option Nat
  | [], _ => none
  | x :: rest, i =>
    match lastIdxOfAux c rest (i + 1) with
    | some j => some j
    | none => if x == c then some i else none

/-- str.rindex(c). -/
def lastIdxOf (l : List Char) (c : Char) : Option Nat := lastIdxOfAux c l 0

/-- Lines 639-646, one device: on a recognized device-name prefix, read
v['size']; a size containing 'G' (resp. 'T') re-binds disk_size to
float(size[0 : rindex - 1]) (times 1024 for 'T'); otherwise disk_size keeps
its PREVIOUS value (the loop variable persists across iterations); in every
recognized-prefix case round(disk_size, 2) is added to disk_total.  The
accumulator is (disk_total in hundredths, current disk_size). -/
def diskStep (acc : Int × Dec) (kv : String × JVal) : Except String (Int × Dec) :=
  if String.mk (kv.1.data.take 2) ∈ diskPrefixes then
    match JVal.index kv.2 "size" with
    | Except.error e => Except.error e
    | Except.ok sv =>
      match sv with
      | JVal.str size =>
        let step : Except String Dec :=
          if 'G' ∈ size.data then
            match lastIdxOf size.data 'G' with
            | some i => pyFloat (String.mk (pySliceTo size.data ((i : Int) - 1)))
            | none => Except.error "ValueError: substring not found"
          else if 'T' ∈ size.data then
            match lastIdxOf size.data 'T' with
            | some i =>
              (pyFloat (String.mk (pySliceTo size.data ((i : Int) - 1)))).map
                (fun d => ⟨d.mant * 1024, d.scale⟩)
            | none => Except.error "ValueError: substring not found"
          else Except.ok acc.2
        match step with
        | Except.error e => Except.error e
        | Except.ok ds => Except.ok (acc.1 + round2Centi ds, ds)
      | JVal.num _ => Except.error "TypeError: argument of type int is not iterable"
      | _ => Except.error "TypeError: argument is not iterable"
  else Except.ok acc

/-- The device loop (lines 639-646). -/
def diskFold : List (String × JVal) → Int × Dec → Except String (Int × Dec)
  | [], acc => Except.ok acc
  | kv :: rest, acc =>
    match diskStep acc kv with
    | Except.error e => Except.error e
    | Except.ok acc2 => diskFold rest acc2

/-- One entry of info['filesystems'] (lines 648-654, all direct indexes). -/
structure FsInfo where
  mount : JVal
  size_total : JVal
  size_available : JVal
  fstype : JVal

/-- The mounts loop (lines 648-654). -/
def fsFold : List JVal → Except String (List FsInfo)
  | [] => Except.ok []
  | v :: rest =>
    JVal.index v "mount" >>= fun m =>
    JVal.index v "size_total" >>= fun st =>
    JVal.index v "size_available" >>= fun sa =>
    JVal.index v "fstype" >>= fun ft =>
    (fsFold rest).map (fun l => ⟨m, st, sa, ft⟩ :: l)

/-- Line 660: re.match(r"^(eth|bond|bind|eno|ens|em|ib)\d+?", name) — a
recognized prefix followed by at least one digit — or the exact name lo. -/
def ifacePred (name : String) : Bool :=
  (["eth", "bond", "bind", "eno", "ens", "em", "ib"].any (fun p =>
    matchFront chEqCS p.data name.data &&
      (match name.data.drop p.length with
       | c :: _ => c.isDigit
       | [] => false))) || name == "lo"

/-- One entry of info['interfaces'] (lines 661-687): the address fields fall
back to the string 'unknown' when the key is absent; every other field is
.get (None when absent). -/
structure IfaceInfo where
  network_card_name : Option JVal
  network_card_mac : Option JVal
  network_card_ipv4 : JVal
  network_card_ipv4_secondaries : JVal
  network_card_ipv6 : JVal
  network_card_model : Option JVal
  network_card_mtu : Option JVal
  network_card_status : Option JVal
  network_card_speed : Option JVal

/-- Build one interface record from facts['ansible_<iface>'] (lines
661-687). -/
def ifaceInfoOf (fs : JObj) : IfaceInfo :=
  ⟨JObj.get fs "device", JObj.get fs "macaddress",
   (match JObj.get fs "ipv4" with
    | some v => v
    | none => JVal.str "unknown"),
   (match JObj.get fs "ipv4_secondaries" with
    | some v => v
    | none => JVal.str "unknown"),
   (match JObj.get fs "ipv6" with
    | some v => v
    | none => JVal.str "unknown"),
   JObj.get fs "type", JObj.get fs "mtu", JObj.get fs "active", JObj.get fs "speed"⟩

/-- The interface loop (lines 656-687): for each recognized interface name
the per-interface dict is read by direct index (KeyError when absent). -/
def ifaceFold (facts : JObj) : List JVal → Except String (List IfaceInfo)
  | [] => Except.ok []
  | JVal.str name :: rest =>
    if ifacePred name then
      match JObj.get facts ("ansible_" ++ name) with
      | some (JVal.obj fs) => (ifaceFold facts rest).map (fun l => ifaceInfoOf fs :: l)
      | some _ => Except.error "AttributeError: .get on a non-dict"
      | none => Except.error ("KeyError: ansible_" ++ name)
    else ifaceFold facts rest
  | _ :: _ => Except.error "TypeError: expected a string interface name"

/-- One reshaped host-info record (the info dict, lines 626-687).
disk_total_centi is info['disk_total'] in hundredths of a GB (exact integer
form of the rounded float sum). -/
structure HostInfo where
  host : String
  hostname : JVal
  cpu_model : JVal
  cpu_number : Int
  vcpu_number : Int
  kernel : JVal
  system : String
  server_model : JVal
  ram_total : Int
  swap_total : Int
  disk_total_centi : Int
  filesystems : List FsInfo
  interfaces : List IfaceInfo

/-- Lines 626-688 for a single ok record with facts dict `facts`: every
field in source order; the first failing read aborts the whole call with
its exception. -/
def summarizeOne (host : String) (facts : JObj) : Except String HostInfo :=
  factsGet facts "ansible_hostname" >>= fun hostname =>
  factsGet facts "ansible_processor" >>= fun processor =>
  (match processor with
   | JVal.arr xs =>
     match (JArr.toList xs).getLast? with
     | some x => Except.ok x
     | none => Except.error "IndexError: list index out of range"
   | _ => Except.error "TypeError: not a list") >>= fun cpu_model =>
  factsGet facts "ansible_processor_count" >>= fun pc =>
  pyInt pc >>= fun cpu_number =>
  factsGet facts "ansible_processor_vcpus" >>= fun pv =>
  pyInt pv >>= fun vcpu_number =>
  factsGet facts "ansible_kernel" >>= fun kernel =>
  factsGet facts "ansible_distribution" >>= fun dist =>
  factsGet facts "ansible_distribution_version" >>= fun distVersion =>
  factsGet facts "ansible_userspace_architecture" >>= fun arch =>
  factsGet facts "ansible_product_name" >>= fun server_model =>
  factsGet facts "ansible_memtotal_mb" >>= fun mt =>
  pyInt mt >>= fun mtv =>
  factsGet facts "ansible_swaptotal_mb" >>= fun st =>
  pyInt st >>= fun stv =>
  factsGet facts "ansible_devices" >>= fun devs =>
  (match devs with
   | JVal.obj fs => Except.ok (JObj.toList fs)
   | _ => Except.error "AttributeError: .items on a non-dict") >>= fun devList =>
  diskFold devList (0, ⟨0, 0⟩) >>= fun dk =>
  factsGet facts "ansible_mounts" >>= fun mounts =>
  (match mounts with
   | JVal.arr xs => Except.ok (JArr.toList xs)
   | _ => Except.error "TypeError: not iterable") >>= fun mountsList =>
  fsFold mountsList >>= fun filesystems =>
  factsGet facts "ansible_interfaces" >>= fun ifs =>
  (match ifs with
   | JVal.arr xs => Except.ok (JArr.toList xs)
   | _ => Except.error "TypeError: not iterable") >>= fun ifList =>
  (ifaceFold facts ifList).map (fun interfaces =>
    ⟨host, hostname, cpu_model, cpu_number, vcpu_number, kernel,
     pyStr dist ++ " " ++ pyStr distVersion ++ " " ++ pyStr arch, server_model,
     halfEvenDiv mtv 1024, halfEvenDiv stv 1024, dk.1, filesystems, interfaces⟩)

/-- The ok-bucket loop of get_server_info (lines 624-688): each record's
raw payload must carry result['ansible_facts'] (direct index). -/
def serverInfoFold : List OutcomeRec → Except String (List HostInfo)
  | [] => Except.ok []
  | r :: rest =>
    (match r.result with
     | JVal.obj fs =>
       match JObj.get fs "ansible_facts" with
       | some (JVal.obj fs2) => Except.ok fs2
       | some _ => Except.error "TypeError: ansible_facts is not a dict"
       | none => Except.error "KeyError: ansible_facts"
     | _ => Except.error "TypeError: result is not a dict") >>= fun facts =>
    summarizeOne r.host facts >>= fun info =>
    (serverInfoFold rest).map (fun l => info :: l)

/-- AnsibleAPI.get_server_info (lines 617-689) on the callback state the
setup run produced: (infos, failed, unreachable, error), or the uncaught
exception of the loop. -/
def get_server_info (cb : CbState) :
    Except String (List HostInfo × List OutcomeRec × List OutcomeRec × String) :=
  match serverInfoFold cb.host_ok with
  | Except.ok infos => Except.ok (infos, cb.host_failed, cb.host_unreachable, cb.error)
  | Except.error e => Except.error e

/-- Facts dict with every field summarizeOne reads before
ansible_product_name present, and ansible_product_name absent. -/
def factsNoModel : JObj := JObjOf
  [("ansible_hostname", JVal.str "web1"),
   ("ansible_processor", JVal.arr (JArrOf [JVal.str "GenuineIntel", JVal.str "Xeon"])),
   ("ansible_processor_count", JVal.num 2),
   ("ansible_processor_vcpus", JVal.num 4),
   ("ansible_kernel", JVal.str "5.4.0"),
   ("ansible_distribution", JVal.str "CentOS"),
   ("ansible_distribution_version", JVal.str "7.9"),
   ("ansible_userspace_architecture", JVal.str "x86_64")]

/-- A complete facts dict: product name present; one recognized interface
eth0 whose dict has ipv6 but lacks ipv4 and ipv4_secondaries. -/
def factsFull : JObj := JObjOf
  [("ansible_hostname", JVal.str "web1"),
   ("ansible_processor", JVal.arr (JArrOf [JVal.str "GenuineIntel", JVal.str "Xeon"])),
   ("ansible_processor_count", JVal.num 2),
   ("ansible_processor_vcpus", JVal.num 4),
   ("ansible_kernel", JVal.str "5.4.0"),
   ("ansible_distribution", JVal.str "CentOS"),
   ("ansible_distribution_version", JVal.str "7.9"),
   ("ansible_userspace_architecture", JVal.str "x86_64"),
   ("ansible_product_name", JVal.str "PowerEdge R740"),
   ("ansible_memtotal_mb", JVal.num 7821),
   ("ansible_swaptotal_mb", JVal.num 2047),
   ("ansible_devices", JVal.obj (JObjOf
     [("sda", JVal.obj (JObjOf [("size", JVal.str "100.00 GB")])),
      ("loop0", JVal.obj (JObjOf [("size", JVal.str "4.00 MB")]))])),
   ("ansible_mounts", JVal.arr (JArrOf
     [JVal.obj (JObjOf
       [("mount", JVal.str "/"), ("size_total", JVal.num 105689374720),
        ("size_available", JVal.num 60000000000), ("fstype", JVal.str "xfs")])])),
   ("ansible_interfaces", JVal.arr (JArrOf [JVal.str "eth0", JVal.str "docker0"])),
   ("ansible_eth0", JVal.obj (JObjOf
     [("device", JVal.str "eth0"), ("macaddress", JVal.str "00:16:3e:00:00:01"),
      ("ipv6", JVal.obj (JObjOf [("address", JVal.str "fe80::1")])),
      ("type", JVal.str "ether"), ("mtu", JVal.num 1500),
      ("active", JVal.bool true), ("speed", JVal.num 1000)]))]

/-- The callback state after a setup run: one ok record carrying
factsFull. -/
def cbFacts : CbState :=
  ⟨[⟨"web1", "Gathering Facts",
     JVal.obj (JObjOf [("ansible_facts", JVal.obj factsFull)]), true, "ok"⟩], [], [], ""⟩

/-- The callback state whose ok record lacks ansible_product_name. -/
def cbNoModel : CbState :=
  ⟨[⟨"web1", "Gathering Facts",
     JVal.obj (JObjOf [("ansible_facts", JVal.obj factsNoModel)]), true, "ok"⟩], [], [], ""⟩

/-! ### Helper lemmas about the filter embedding -/

theorem matchFront_nil (eqf : Char → Char → Bool) (l : List Char) :
    matchFront eqf [] l = true := rfl

theorem matchFront_cons_nil (eqf : Char → Char → Bool) (a : Char) (as : List Char) :
    matchFront eqf (a :: as) [] = false := rfl

theorem matchFront_cons_cons (eqf : Char → Char → Bool) (a : Char) (as : List Char)
    (b : Char) (bs : List Char) :
    matchFront eqf (a :: as) (b :: bs) = (eqf a b && matchFront eqf as bs) := rfl

theorem matchFront_take {eqf : Char → Char → Bool} : ∀ (p l : List Char),
    matchFront eqf p l = true → ∀ k, matchFront eqf (p.take k) (l.take k) = true := by
  intro p
  induction p with
  | nil => intro l _ k; simp [matchFront_nil]
  | cons a as ih =>
    intro l h k
    cases l with
    | nil => simp [matchFront_cons_nil] at h
    | cons b bs =>
      cases k with
      | zero => simp [matchFront_nil]
      | succ k2 =>
        simp only [matchFront_cons_cons, Bool.and_eq_true] at h
        simp only [List.take_succ_cons, matchFront_cons_cons, Bool.and_eq_true]
        exact ⟨h.1, ih bs h.2 k2⟩

theorem matchFront_false_of_take {eqf : Char → Char → Bool} (p l : List Char) (k : Nat)
    (h : matchFront eqf (p.take k) (l.take k) = false) : matchFront eqf p l = false := by
  cases hm : matchFront eqf p l
  · rfl
  · exact absurd (matchFront_take p l hm k) (by simp [h])

theorem matchFront_refl_append {eqf : Char → Char → Bool} (hr : ∀ c, eqf c c = true) :
    ∀ (p t : List Char), matchFront eqf p (p ++ t) = true := by
  intro p t
  induction p with
  | nil => rfl
  | cons a as ih => simp [matchFront_cons_cons, hr a, ih]

theorem matchFront_space {eqf : Char → Char → Bool} : ∀ (xs p t : List Char),
    (∀ c ∈ p, eqf c ' ' = false) →
    matchFront eqf p (xs ++ (' ' :: t)) = matchFront eqf p (xs ++ [' ']) := by
  intro xs
  induction xs with
  | nil =>
    intro p t hp
    cases p with
    | nil => rfl
    | cons a as =>
      have ha : eqf a ' ' = false := hp a (by simp)
      simp [matchFront_cons_cons, ha]
  | cons x xs2 ih =>
    intro p t hp
    cases p with
    | nil => rfl
    | cons a as =>
      have has : ∀ c ∈ as, eqf c ' ' = false := fun c hc => hp c (by simp [hc])
      simp [matchFront_cons_cons, ih as t has]

theorem matchFront_parts {eqf : Char → Char → Bool} : ∀ (p q l : List Char),
    matchFront eqf (p ++ q) l = true → matchFront eqf p l = true := by
  intro p
  induction p with
  | nil => intro q l _; rfl
  | cons a as ih =>
    intro q l h
    cases l with
    | nil => simp [matchFront_cons_nil] at h
    | cons b bs =>
      simp only [List.cons_append, matchFront_cons_cons, Bool.and_eq_true] at h ⊢
      exact ⟨h.1, ih q bs h.2⟩

theorem matchFront_CI_of_CS : ∀ (p l : List Char),
    matchFront chEqCS p l = true → matchFront chEqCI p l = true := by
  intro p
  induction p with
  | nil => intro l _; rfl
  | cons a as ih =>
    intro l h
    cases l with
    | nil => simp [matchFront_cons_nil] at h
    | cons b bs =>
      simp only [matchFront_cons_cons, Bool.and_eq_true] at h ⊢
      refine ⟨?_, ih bs h.2⟩
      have hab : a = b := eq_of_beq h.1
      simp [chEqCI, hab]

theorem find?_congr {α : Type} (p q : α → Bool) : ∀ (l : List α),
    (∀ a ∈ l, p a = q a) → l.find? p = l.find? q := by
  intro l
  induction l with
  | nil => intro _; rfl
  | cons a as ih =>
    intro h
    simp only [List.find?]
    rw [h a (by simp)]
    cases q a
    · exact ih (fun x hx => h x (by simp [hx]))
    · rfl

theorem denyNoSpaceCI : ∀ n ∈ denyNamesC, ∀ c ∈ n, chEqCI c ' ' = false := by decide

theorem firstDeny_space (xs t : List Char) :
    firstDeny (xs ++ (' ' :: t)) = firstDeny (xs ++ [' ']) := by
  unfold firstDeny
  exact find?_congr _ _ _ (fun n hn => matchFront_space xs n t (denyNoSpaceCI n hn))

theorem firstDeny_nil : firstDeny [] = none := by decide

theorem denyFreeB_cons (c : Char) (rest : List Char) :
    denyFreeB (c :: rest) = ((firstDeny (c :: rest)).isNone && denyFreeB rest) := rfl

theorem denyFreeB_head : ∀ (l : List Char), denyFreeB l = true → firstDeny l = none := by
  intro l h
  cases l with
  | nil => exact firstDeny_nil
  | cons c rest =>
    rw [denyFreeB_cons] at h
    simp only [Bool.and_eq_true] at h
    exact Option.eq_none_of_isNone h.1

theorem denyFreeB_tail (c : Char) (l : List Char) (h : denyFreeB (c :: l) = true) :
    denyFreeB l = true := by
  rw [denyFreeB_cons] at h
  simp only [Bool.and_eq_true] at h
  exact h.2

theorem firstDeny_none_vars (l : List Char) (h : firstDeny l = none) :
    matchFront chEqCI "vars".data l = false := by
  cases hm : matchFront chEqCI "vars".data l
  · rfl
  · exfalso
    have hmem : "vars".data ∈ denyNamesC := by decide
    have hall := List.find?_eq_none.1 h "vars".data hmem
    exact hall hm

theorem chEqCI_refl (c : Char) : chEqCI c c = true := by simp [chEqCI]

theorem firstDeny_pass (t : List Char) : firstDeny (passC ++ t) = some passC := by
  have e1 : (passC ++ t).take 1 = ['a'] := by
    rw [List.take_append_of_le_length (by decide)]; decide
  have h1 : matchFront chEqCI "vars".data (passC ++ t) = false := by
    apply matchFront_false_of_take _ _ 1
    rw [e1]; decide
  have h2 : matchFront chEqCI "hostvars".data (passC ++ t) = false := by
    apply matchFront_false_of_take _ _ 1
    rw [e1]; decide
  have h3 : matchFront chEqCI
      ['a', 'n', 's', 'i', 'b', 'l', 'e', '_', 's', 's', 'h', '_', 'p', 'a', 's', 's']
      (passC ++ t) = true :=
    matchFront_refl_append chEqCI_refl passC t
  unfold firstDeny denyNamesC ANSIBLE_DENY_VARIBLE_LISTS
  simp only [List.map, List.find?, h1, h2]
  rw [h3]
  rfl

theorem groupHere_cons (c : Char) (rest : List Char) : groupHere (c :: rest) =
    (match firstDeny rest with
     | some n => some (c :: List.take (n.length + 1) rest)
     | none =>
       match firstDeny (c :: rest) with
       | some n => some (List.take (n.length + 1) (c :: rest))
       | none => none) := rfl

theorem scanGroup_cons (c : Char) (rest : List Char) : scanGroup (c :: rest) =
    (match groupHere (c :: rest) with
     | some g => some g
     | none => scanGroup rest) := rfl

theorem scan_pass : ∀ (w1 t : List Char), denyFreeB (w1 ++ [' ']) = true →
    scanGroup (w1 ++ (' ' :: (passC ++ (' ' :: t)))) = some (' ' :: (passC ++ [' '])) := by
  intro w1
  induction w1 with
  | nil =>
    intro t _
    have hR : List.take (passC.length + 1) (passC ++ (' ' :: t)) = passC ++ [' '] := by
      rw [List.take_append_eq_append_take,
          List.take_of_length_le (by simp),
          show passC.length + 1 - passC.length = 1 by simp]
      simp
    simp only [List.nil_append, scanGroup_cons, groupHere_cons, firstDeny_pass, hR]
  | cons a w1' ih =>
    intro t h
    have h' : denyFreeB (a :: (w1' ++ [' '])) = true := by
      simpa [List.cons_append] using h
    have hTail : denyFreeB (w1' ++ [' ']) = true := denyFreeB_tail _ _ h'
    have hHead : firstDeny (a :: (w1' ++ [' '])) = none := denyFreeB_head _ h'
    have hb1 : firstDeny (w1' ++ (' ' :: (passC ++ (' ' :: t)))) = none := by
      rw [firstDeny_space]
      exact denyFreeB_head _ hTail
    have hb2 : firstDeny (a :: (w1' ++ (' ' :: (passC ++ (' ' :: t))))) = none := by
      rw [show a :: (w1' ++ (' ' :: (passC ++ (' ' :: t)))) =
            (a :: w1') ++ (' ' :: (passC ++ (' ' :: t))) from rfl,
          firstDeny_space]
      exact hHead
    rw [List.cons_append, scanGroup_cons, groupHere_cons, hb1, hb2]
    exact ih t hTail

theorem noMatchIn_nil (pat ys : List Char) : noMatchIn pat [] ys = true := rfl

theorem noMatchIn_cons (pat : List Char) (c : Char) (rest ys : List Char) :
    noMatchIn pat (c :: rest) ys =
      (!matchFront chEqCS pat ((c :: rest) ++ ys) && noMatchIn pat rest ys) := rfl

theorem noMatchIn_head_ne (c0 : Char) (pt : List Char) : ∀ (xs ys : List Char),
    (∀ c ∈ xs, (c0 == c) = false) → noMatchIn (c0 :: pt) xs ys = true := by
  intro xs
  induction xs with
  | nil => intro ys _; rfl
  | cons x xs2 ih =>
    intro ys h
    have hx : (c0 == x) = false := h x (by simp)
    rw [noMatchIn_cons, List.cons_append, matchFront_cons_cons]
    simp only [chEqCS, hx, Bool.false_and, Bool.not_false, Bool.true_and]
    exact ih ys (fun c hc => h c (by simp [hc]))

theorem noMatchIn_w1 (patTail : List Char)
    (hsp : ∀ c ∈ ("vars".data ++ patTail), chEqCS c ' ' = false) :
    ∀ (w1 t : List Char), denyFreeB (w1 ++ [' ']) = true →
    noMatchIn ("vars".data ++ patTail) w1 (' ' :: t) = true := by
  intro w1
  induction w1 with
  | nil => intro t _; rfl
  | cons a w1' ih =>
    intro t h
    have h' : denyFreeB (a :: (w1' ++ [' '])) = true := by
      simpa [List.cons_append] using h
    have hTail : denyFreeB (w1' ++ [' ']) = true := denyFreeB_tail _ _ h'
    have hHead : firstDeny (a :: (w1' ++ [' '])) = none := denyFreeB_head _ h'
    have hm : matchFront chEqCS ("vars".data ++ patTail) ((a :: w1') ++ (' ' :: t)) = false := by
      cases hmt : matchFront chEqCS ("vars".data ++ patTail) ((a :: w1') ++ (' ' :: t))
      · rfl
      · exfalso
        rw [matchFront_space (a :: w1') _ t hsp] at hmt
        have hv : matchFront chEqCS "vars".data ((a :: w1') ++ [' ']) = true :=
          matchFront_parts _ patTail _ hmt
        have hvCI : matchFront chEqCI "vars".data ((a :: w1') ++ [' ']) = true :=
          matchFront_CI_of_CS _ _ hv
        have : matchFront chEqCI "vars".data ((a :: w1') ++ [' ']) = false :=
          firstDeny_none_vars _ hHead
        rw [this] at hvCI
        exact Bool.false_ne_true hvCI
    rw [noMatchIn_cons, hm]
    simp only [Bool.not_false, Bool.true_and]
    exact ih t hTail

theorem noMatchIn_append (pat : List Char) : ∀ (u v ys : List Char),
    noMatchIn pat (u ++ v) ys = (noMatchIn pat u (v ++ ys) && noMatchIn pat v ys) := by
  intro u
  induction u with
  | nil => intro v ys; simp [noMatchIn_nil]
  | cons x u' ih =>
    intro v ys
    simp only [List.cons_append, noMatchIn_cons, ih, List.append_assoc, Bool.and_assoc]

theorem replaceAllF_zero (pat rep : List Char) (l : List Char) :
    replaceAllF pat rep 0 l = [] := rfl

theorem replaceAllF_succ_nil (pat rep : List Char) (f : Nat) :
    replaceAllF pat rep (f + 1) [] = [] := rfl

theorem replaceAllF_succ_cons (pat rep : List Char) (f : Nat) (c : Char) (rest : List Char) :
    replaceAllF pat rep (f + 1) (c :: rest) =
      (if matchFront chEqCS pat (c :: rest)
       then rep ++ replaceAllF pat rep f (List.drop (pat.length - 1) rest)
       else c :: replaceAllF pat rep f rest) := rfl

theorem replaceAllF_split (pat rep : List Char) : ∀ (xs ys : List Char) (f : Nat),
    (xs ++ ys).length ≤ f → noMatchIn pat xs ys = true →
    replaceAllF pat rep f (xs ++ ys) = xs ++ replaceAllF pat rep (f - xs.length) ys := by
  intro xs
  induction xs with
  | nil => intro ys f _ _; simp
  | cons c xs' ih =>
    intro ys f h hnm
    rw [noMatchIn_cons] at hnm
    simp only [Bool.and_eq_true, Bool.not_eq_true'] at hnm
    cases f with
    | zero => simp at h
    | succ f' =>
      rw [List.cons_append, replaceAllF_succ_cons]
      rw [show (c :: xs') ++ ys = c :: (xs' ++ ys) from rfl] at hnm
      rw [hnm.1]
      simp only [Bool.false_eq_true, if_false]
      have hlen : (xs' ++ ys).length ≤ f' := by
        simpa [List.length_cons, Nat.succ_le_succ_iff] using h
      rw [ih ys f' hlen hnm.2]
      simp [Nat.succ_sub_succ]

theorem replaceAll_split (pat rep xs ys : List Char) (h : noMatchIn pat xs ys = true) :
    replaceAll pat rep (xs ++ ys) = xs ++ replaceAll pat rep ys := by
  unfold replaceAll
  rw [replaceAllF_split pat rep xs ys _ (Nat.le_refl _) h]
  congr 1
  rw [show (xs ++ ys).length - xs.length = ys.length by simp]

theorem noMatchIn_X_vars (w1 : List Char) (h : denyFreeB (w1 ++ [' ']) = true) :
    ∀ ys, noMatchIn "vars:".data (w1 ++ (' ' :: (passC ++ [' ']))) ys = true := by
  intro ys
  rw [noMatchIn_append]
  have h1 : noMatchIn "vars:".data w1 ((' ' :: (passC ++ [' '])) ++ ys) = true := by
    have hs : ∀ c ∈ ("vars".data ++ ":".data), chEqCS c ' ' = false := by decide
    have := noMatchIn_w1 ":".data hs w1 ((passC ++ [' ']) ++ ys) h
    simpa using this
  have h2 : noMatchIn "vars:".data (' ' :: (passC ++ [' '])) ys = true := by
    rw [show ("vars:".data : List Char) = 'v' :: "ars:".data from rfl]
    exact noMatchIn_head_ne 'v' "ars:".data _ ys (by decide)
  rw [h1, h2]
  rfl

theorem noMatchIn_X_varsFiles (w1 : List Char) (h : denyFreeB (w1 ++ [' ']) = true) :
    ∀ ys, noMatchIn "vars_files:".data (w1 ++ (' ' :: (passC ++ [' ']))) ys = true := by
  intro ys
  rw [noMatchIn_append]
  have h1 : noMatchIn "vars_files:".data w1 ((' ' :: (passC ++ [' '])) ++ ys) = true := by
    have hs : ∀ c ∈ ("vars".data ++ "_files:".data), chEqCS c ' ' = false := by decide
    have := noMatchIn_w1 "_files:".data hs w1 ((passC ++ [' ']) ++ ys) h
    simpa using this
  have h2 : noMatchIn "vars_files:".data (' ' :: (passC ++ [' '])) ys = true := by
    rw [show ("vars_files:".data : List Char) = 'v' :: "ars_files:".data from rfl]
    exact noMatchIn_head_ne 'v' "ars_files:".data _ ys (by decide)
  rw [h1, h2]
  rfl

/-- C3 (amended): for every text of the form `w1 ++ " ansible_ssh_pass " ++ w2`
— the deny-listed name delimited by single spaces — in which no deny-list name
occurs case-insensitively inside the prefix `w1`, the Variable Safety Filter
returns a positive result naming "ansible_ssh_pass" (no condition on the
suffix `w2` is needed: the filter reports the first match).  The original
claim, quantifying over every text containing the substring, is refuted by
`c3_counterexample`. -/
theorem c3_theorem (w1 w2 : List Char) (h : denyFreeB (w1 ++ [' ']) = true) :
    checkChars (w1 ++ (' ' :: (passC ++ (' ' :: w2)))) = (true, some passC) := by
  have hform : w1 ++ (' ' :: (passC ++ (' ' :: w2))) =
      (w1 ++ (' ' :: (passC ++ [' ']))) ++ w2 := by
    simp
  rw [hform]
  unfold checkChars
  rw [replaceAll_split _ _ _ _ (noMatchIn_X_vars w1 h w2),
      replaceAll_split _ _ _ _ (noMatchIn_X_varsFiles w1 h _)]
  have hscan : scanGroup ((w1 ++ (' ' :: (passC ++ [' ']))) ++
      replaceAll "vars_files:".data "+++".data (replaceAll "vars:".data "+++".data w2)) =
      some (' ' :: (passC ++ [' '])) := by
    rw [show (w1 ++ (' ' :: (passC ++ [' ']))) ++
        replaceAll "vars_files:".data "+++".data (replaceAll "vars:".data "+++".data w2) =
        w1 ++ (' ' :: (passC ++ (' ' ::
          replaceAll "vars_files:".data "+++".data
            (replaceAll "vars:".data "+++".data w2)))) from by simp]
    exact scan_pass w1 _ h
  rw [hscan]
  decide

/-- C3 counterexample: the text "aansible_ssh_pass" contains the literal
substring "ansible_ssh_pass" (at position 1) and contains no "vars:" or
"vars_files:" keyword token at all, yet check_ansible_variable returns a
negative result: the regex group grabs the flanking character, the cleaned
token "aansible_ssh_pass" is not a deny-list member, and the filter falls
through to (False, None). -/
theorem c3_counterexample :
    occursCS passC "aansible_ssh_pass".data = true ∧
    occursCS "vars:".data "aansible_ssh_pass".data = false ∧
    occursCS "vars_files:".data "aansible_ssh_pass".data = false ∧
    check_ansible_variable "aansible_ssh_pass" = (false, none) := by decide

/-- C3 witness: the amended theorem applied at the concrete text
"echo ansible_ssh_pass now". -/
theorem c3_witness :
    denyFreeB ("echo".data ++ [' ']) = true ∧
    checkChars ("echo".data ++ (' ' :: (passC ++ (' ' :: "now".data)))) =
      (true, some passC) :=
  ⟨by decide, c3_theorem "echo".data "now".data (by decide)⟩

/-- C8: the filter on the exact input "\x7b\x7b ansible_become_pass \x7d\x7d"
returns a positive result naming "ansible_become_pass" (the brace and the
whitespace around the matched token are stripped before the deny-list
membership comparison), and on a text containing only the keyword literal
"vars:" with no deny-listed identifier elsewhere it returns a negative
result. -/
theorem c8_theorem :
    check_ansible_variable "\x7b\x7b ansible_become_pass \x7d\x7d" =
      (true, some "ansible_become_pass") ∧
    check_ansible_variable "vars:" = (false, none) ∧
    check_ansible_variable "- hosts: all\n  vars:\n    greeting: hello\n" =
      (false, none) := by decide

/-- C6: the preference order ok > failed > unreachable is honoured (first
record of the first non-empty bucket, JSON-encoded), but on the global-error
branch the code evaluates `[json.dumps(i) for i in error][0]` over a STRING,
so it returns the JSON encoding of the first character of the error message
('"s"'), not the JSON encoding of the global error string.  This theorem
evaluates the code at the failing input. -/
theorem c6_theorem :
    get_result (v2_playbook_on_no_hosts_matched CallbackModule_init) = some "\"s\"" ∧
    jdump (JVal.str "skipping: No match hosts.") = "\"skipping: No match hosts.\"" ∧
    ("\"s\"" : String) ≠ "\"skipping: No match hosts.\"" ∧
    get_result (v2_runner_on_failed (v2_runner_on_ok
        (v2_runner_on_ok CallbackModule_init "h1" "t1" (JVal.num 1))
        "h2" "t2" (JVal.num 2)) "h3" "t3" (JVal.num 3)) =
      some "\x7b\"host\": \"h1\", \"task_name\": \"t1\", \"result\": 1, \"success\": true, \"msg\": \"ok\"\x7d" ∧
    get_result (v2_runner_on_unreachable (v2_runner_on_failed CallbackModule_init
        "h4" "t4" JVal.null) "h5" "t5" JVal.null) =
      some "\x7b\"host\": \"h4\", \"task_name\": \"t4\", \"result\": null, \"success\": false, \"msg\": \"failed\"\x7d" := by
  refine ⟨rfl, rfl, by decide, rfl, rfl⟩

/-- C10: when all three buckets are empty and the global error string is
empty, get_result falls through every branch and returns None. -/
theorem c10_theorem (cb : CbState) (h1 : cb.host_ok = []) (h2 : cb.host_failed = [])
    (h3 : cb.host_unreachable = []) (h4 : cb.error = "") : get_result cb = none := by
  cases cb
  simp only at h1 h2 h3 h4
  subst h1; subst h2; subst h3; subst h4
  rfl

/-- C10 witness: the freshly initialized CallbackModule state. -/
theorem c10_witness :
    CallbackModule_init.host_ok = [] ∧ CallbackModule_init.host_failed = [] ∧
    CallbackModule_init.host_unreachable = [] ∧ CallbackModule_init.error = "" ∧
    get_result CallbackModule_init = none :=
  ⟨rfl, rfl, rfl, rfl, c10_theorem CallbackModule_init rfl rfl rfl rfl⟩

/-! ### Host-record and inventory lemmas -/

theorem getVar_setVar_self : ∀ (m : List (String × AVal)) (k : String) (v : AVal),
    getVar (setVar m k v) k = some v := by
  intro m k v
  induction m with
  | nil => simp [setVar, getVar]
  | cons p rest ih =>
    obtain ⟨k2, v2⟩ := p
    by_cases h : k2 = k
    · subst h; simp [setVar, getVar]
    · simp [setVar, getVar, h, ih]

theorem getVar_setVar_ne : ∀ (m : List (String × AVal)) (k k2 : String) (v : AVal),
    k2 ≠ k → getVar (setVar m k2 v) k = getVar m k := by
  intro m k k2 v h
  induction m with
  | nil => simp [setVar, getVar, h]
  | cons p rest ih =>
    obtain ⟨k3, v3⟩ := p
    by_cases h2 : k3 = k2
    · subst h2
      simp [setVar, getVar, h]
    · simp [setVar, getVar, h2, ih]

theorem getVar_ite_setVar_ne (c : Prop) [Decidable c] (m : List (String × AVal))
    (k k2 : String) (v : AVal) (h : k2 ≠ k) :
    getVar (if c then setVar m k2 v else m) k = getVar m k := by
  split
  · exact getVar_setVar_ne m k k2 v h
  · rfl

theorem getVar_coreVars_host (d : HostData) (p : Int) :
    getVar (coreVars d p) "ansible_host" = some (AVal.s d.ip) := by
  simp only [coreVars, ANSIBLE_CONNECTION_TYPE]
  rw [if_neg (by decide)]
  rw [getVar_setVar_ne _ _ _ _ (by decide)]
  exact getVar_setVar_self _ _ _

theorem getVar_coreVars_port (d : HostData) (p : Int) :
    getVar (coreVars d p) "ansible_port" = some (AVal.n p) := by
  simp only [coreVars, ANSIBLE_CONNECTION_TYPE]
  rw [if_neg (by decide)]
  exact getVar_setVar_self _ _ _

theorem getVar_credVars (d : HostData) (m : List (String × AVal)) (k : String)
    (h1 : k ≠ "ansible_user") (h2 : k ≠ "ansible_ssh_pass")
    (h3 : k ≠ "ansible_ssh_private_key_file") :
    getVar (credVars d m) k = getVar m k := by
  simp only [credVars, ANSIBLE_CONNECTION_TYPE]
  rw [if_neg (by decide)]
  rw [getVar_ite_setVar_ne _ _ _ _ _ (Ne.symm h3),
      getVar_ite_setVar_ne _ _ _ _ _ (Ne.symm h2),
      getVar_ite_setVar_ne _ _ _ _ _ (Ne.symm h1)]

theorem getVar_becomeVars (d : HostData) (m : List (String × AVal)) (k : String)
    (h1 : k ≠ "ansible_become") (h2 : k ≠ "ansible_become_method")
    (h3 : k ≠ "ansible_become_user") (h4 : k ≠ "ansible_become_pass") :
    getVar (becomeVars d m) k = getVar m k := by
  simp only [becomeVars, ANSIBLE_CONNECTION_TYPE]
  split
  · split
    · rw [if_neg (show ¬ (("paramiko" : String) = "ssh") from by decide), ite_self]
      rw [getVar_setVar_ne _ _ _ _ (Ne.symm h4),
          getVar_setVar_ne _ _ _ _ (Ne.symm h3),
          getVar_setVar_ne _ _ _ _ (Ne.symm h2),
          getVar_setVar_ne _ _ _ _ (Ne.symm h1)]
    · exact getVar_setVar_ne _ _ _ _ (Ne.symm h1)
  · exact getVar_setVar_ne _ _ _ _ (Ne.symm h1)

theorem getVar_foldl_unbound : ∀ (l : List (String × AVal)) (m : List (String × AVal))
    (k : String), (∀ kv ∈ l, kv.1 ≠ k) →
    getVar (l.foldl (fun acc kv => setVar acc kv.1 kv.2) m) k = getVar m k := by
  intro l
  induction l with
  | nil => intro m k _; rfl
  | cons kv rest ih =>
    intro m k h
    simp only [List.foldl]
    rw [ih _ _ (fun x hx => h x (by simp [hx]))]
    exact getVar_setVar_ne _ _ _ _ (h kv (by simp))

/-- C4 (amended): the extra variables are merged last and shadow EVERY
variable set by the Host Record component, the connection-critical keys
ansible_host and ansible_port included.  Whenever the extra-vars mapping
binds neither ansible_host nor ansible_port, the constructed record carries
ansible_host = the descriptor's ip and ansible_port = the descriptor's raw
port value, but a descriptor may override both (refuted original in
`c4_counterexample`). -/
theorem c4_theorem (d : HostData) (p : Int) (r : HostRec) (hp : d.port = some p)
    (hr : BaseHost_init d = some r)
    (hv : ∀ kv ∈ d.vars, kv.1 ≠ "ansible_host" ∧ kv.1 ≠ "ansible_port") :
    getVar r.hvars "ansible_host" = some (AVal.s d.ip) ∧
    getVar r.hvars "ansible_port" = some (AVal.n p) := by
  unfold BaseHost_init at hr
  rw [hp] at hr
  injection hr with hr2
  subst hr2
  constructor
  · show getVar (set_extra_variables d (set_required_variables d p)) "ansible_host" = _
    unfold set_extra_variables set_required_variables
    rw [getVar_foldl_unbound _ _ _ (fun kv hk => (hv kv hk).1),
        getVar_becomeVars _ _ _ (by decide) (by decide) (by decide) (by decide),
        getVar_credVars _ _ _ (by decide) (by decide) (by decide)]
    exact getVar_coreVars_host d p
  · show getVar (set_extra_variables d (set_required_variables d p)) "ansible_port" = _
    unfold set_extra_variables set_required_variables
    rw [getVar_foldl_unbound _ _ _ (fun kv hk => (hv kv hk).2),
        getVar_becomeVars _ _ _ (by decide) (by decide) (by decide) (by decide),
        getVar_credVars _ _ _ (by decide) (by decide) (by decide)]
    exact getVar_coreVars_port d p

/-- C4 counterexample: a descriptor whose extra-vars mapping binds
ansible_host and ansible_port.  After construction the record's
ansible_host is "evil" (not the descriptor's ip "10.0.0.1") and its
ansible_port is 9999 (not the descriptor's port 22): the merge on lines
134-136 protects nothing. -/
theorem c4_counterexample :
    (BaseHost_init dEvil).map
      (fun r => (getVar r.hvars "ansible_host", getVar r.hvars "ansible_port")) =
      some (some (AVal.s "evil"), some (AVal.n 9999)) ∧
    dEvil.ip = "10.0.0.1" ∧ dEvil.port = some 22 ∧
    AVal.s "evil" ≠ AVal.s "10.0.0.1" ∧ AVal.n 9999 ≠ AVal.n 22 := by decide

/-- C4 witness: the amended theorem at a descriptor whose extra vars bind
only the benign key "color". -/
theorem c4_witness :
    (∀ kv ∈ dPlain.vars, kv.1 ≠ "ansible_host" ∧ kv.1 ≠ "ansible_port") ∧
    (BaseHost_init dPlain).map
      (fun r => (getVar r.hvars "ansible_host", getVar r.hvars "ansible_port")) =
      some (some (AVal.s "10.0.0.2"), some (AVal.n 2222)) := by
  refine ⟨by decide, ?_⟩
  cases hr : BaseHost_init dPlain with
  | none => exact absurd hr (by decide)
  | some r =>
    have h := c4_theorem dPlain 2222 r rfl hr (by decide)
    simp only [Option.map, h.1, h.2]
    rfl

theorem BaseHost_init_eq (d : HostData) (p : Int) (hp : d.port = some p) :
    BaseHost_init d = some (BaseHost_build d p) := by
  unfold BaseHost_init
  rw [hp]

theorem BaseHost_build_name (d : HostData) (p : Int) :
    (BaseHost_build d p).name = resolvedName d := rfl

theorem addHost_names (g : List HostRec) (h : HostRec) :
    (addHost g h).map HostRec.name =
      (if h.name ∈ g.map HostRec.name then g.map HostRec.name
       else g.map HostRec.name ++ [h.name]) := by
  unfold addHost
  split <;> simp

theorem parse_sources_cons (st : InvState) (d : HostData) (rest : List HostData) :
    parse_sources st (d :: rest) =
      (match parse_step st d with
       | none => none
       | some st2 => parse_sources st2 rest) := rfl

theorem parse_sources_names : ∀ (ds : List HostData) (st : InvState),
    (∀ d ∈ ds, (d.hostname).isSome = true) →
    (∀ d ∈ ds, (d.port).isSome = true) →
    (parse_sources st ds).map (fun st2 => st2.allGroup.map HostRec.name) =
      some ((ds.map resolvedName).foldl
        (fun acc n => if n ∈ acc then acc else acc ++ [n])
        (st.allGroup.map HostRec.name)) := by
  intro ds
  induction ds with
  | nil => intro st _ _; rfl
  | cons d rest ih =>
    intro st hh h
    obtain ⟨p, hp⟩ := Option.isSome_iff_exists.1 (h d (by simp))
    obtain ⟨hn, hhn⟩ := Option.isSome_iff_exists.1 (hh d (by simp))
    have hstep : parse_step st d = some (parse_step_state st d hn (BaseHost_build d p)) := by
      unfold parse_step
      rw [BaseHost_init_eq d p hp, hhn]
    have hrec : parse_sources st (d :: rest) =
        parse_sources (parse_step_state st d hn (BaseHost_build d p)) rest := by
      rw [parse_sources_cons, hstep]
    rw [hrec, ih _ (fun d2 hd2 => hh d2 (by simp [hd2])) (fun d2 hd2 => h d2 (by simp [hd2]))]
    simp only [List.map, List.foldl]
    congr 2
    show (addHost st.allGroup (BaseHost_build d p)).map HostRec.name = _
    rw [addHost_names, BaseHost_build_name]

theorem foldl_dedup_nodup : ∀ (l : List String) (acc : List String), acc.Nodup →
    (l.foldl (fun acc n => if n ∈ acc then acc else acc ++ [n]) acc).Nodup := by
  intro l
  induction l with
  | nil => intro acc h; exact h
  | cons x rest ih =>
    intro acc h
    simp only [List.foldl]
    apply ih
    by_cases hx : x ∈ acc
    · simpa [hx] using h
    · simp [hx, List.nodup_append, h]

/-- C5 (amended): for every sequence of host descriptors that all carry a
hostname key and a port key, building the inventory succeeds and the "all"
group is a duplicate-free list of hosts whose names are the descriptors'
resolved names (the hostname value, falling back to ip when it is empty)
with later duplicates dropped, so its size is the number of DISTINCT
resolved names, not the number of descriptors (refuted original in
`c5_counterexample`).  A descriptor WITHOUT a hostname key does not fall
back to ip: line 172's direct index self.hosts[host_data['hostname']]
raises KeyError and the build aborts (last conjunct). -/
theorem c5_theorem (ds : List HostData)
    (hh : ∀ d ∈ ds, (d.hostname).isSome = true)
    (hp : ∀ d ∈ ds, (d.port).isSome = true) :
    ((parse_sources InvState.initial ds).map (fun st => st.allGroup.map HostRec.name) =
      some (dedupKeepFirst (ds.map resolvedName)) ∧
     (dedupKeepFirst (ds.map resolvedName)).Nodup) ∧
    (∀ (st : InvState) (d : HostData), d.hostname = none → parse_step st d = none) := by
  refine ⟨⟨?_, ?_⟩, ?_⟩
  · have h2 := parse_sources_names ds InvState.initial hh hp
    simpa [dedupKeepFirst, InvState.initial] using h2
  · exact foldl_dedup_nodup _ _ List.nodup_nil
  · intro st d hd
    unfold parse_step
    rw [hd]
    cases BaseHost_init d <;> rfl

/-- C5 counterexample: two descriptors both resolving to the host name
"git": the ansible group deduplicates by name, so resolving "all" yields a
single host although two descriptors were fed in. -/
theorem c5_counterexample :
    dsDup.length = 2 ∧
    (parse_sources InvState.initial dsDup).map
      (fun st => (st.allGroup.map HostRec.name).length) = some 1 := by decide

/-- C5 witness: the amended theorem at two descriptors with distinct
resolved names, the second carrying an empty hostname and named by ip
fallback; and the KeyError conjunct at a descriptor without a hostname
key. -/
theorem c5_witness :
    (∀ d ∈ dsTwo, (d.hostname).isSome = true) ∧
    (∀ d ∈ dsTwo, (d.port).isSome = true) ∧
    ((parse_sources InvState.initial dsTwo).map
      (fun st => st.allGroup.map HostRec.name) =
      some (dedupKeepFirst (dsTwo.map resolvedName)) ∧
     (dedupKeepFirst (dsTwo.map resolvedName)).Nodup) ∧
    parse_step InvState.initial
      ⟨none, "10.9.9.9", some 22, none, none, none, none, [], []⟩ = none :=
  ⟨by decide, by decide, (c5_theorem dsTwo (by decide) (by decide)).1,
   (c5_theorem dsTwo (by decide) (by decide)).2 InvState.initial
     ⟨none, "10.9.9.9", some 22, none, none, none, none, [], []⟩ rfl⟩

/-! ### Execution-engine theorems -/

/-- C1 (amended): neither public entry point honours the propagation policy
on every input.  run_module catches every exception raised inside its try
block (TaskQueueManager construction and run), but Play().load on line 361
runs BEFORE the try and its eager task-args parse failure (e.g. an
unbalanced quote in module_args) propagates uncaught: run_module returns
without raising iff the load succeeded.  run_playbook returns without
raising iff the playbook file was read, the safety filter did not flag it,
the executor constructor succeeded, and (when the run itself raised) the
callback carries the res/start_time attributes; a missing playbook path, a
safety-filter rejection, or a failed executor construction all escape as an
AttributeError from the unguarded finally block (refuted original in
`c1_counterexample`). -/
theorem c1_theorem :
    (∀ (l c r : Bool), (run_module l c r).raised = none ↔ l = false) ∧
    (∀ (fileContent : Option String) (cb c r : Bool),
      (run_playbook fileContent cb c r).raised = none ↔
        ((match fileContent with
          | none => False
          | some content => (check_ansible_variable content).fst = false) ∧
         c = false ∧ (r = false ∨ cb = true))) := by
  constructor
  · intro l c r
    cases l <;> cases c <;> cases r <;> decide
  · intro fileContent cb c r
    cases fileContent with
    | none => simp [run_playbook, pbConstructed]
    | some content =>
      cases hch : (check_ansible_variable content).fst <;>
        cases cb <;> cases c <;> cases r <;>
        simp [run_playbook, pbConstructed, hch]

/-- C1 counterexample: run_playbook on a missing playbook file — the open()
raises, the handler swallows it, and then the finally block dereferences the
never-assigned executor (`playbook._tqm` with playbook = None), so an
AttributeError propagates to the caller instead of resolving to collector
data or a rejection notice; and run_module with a failing eager task parse
(Play().load, before the try) — the AnsibleParserError propagates. -/
theorem c1_counterexample :
    (run_playbook none true false false).raised =
      some "AttributeError: NoneType has no attribute _tqm" ∧
    (run_module true false false).raised = some "AnsibleParserError" := by decide

/-- C2 (amended): run_module performs its guarded teardown exactly once on
every exit path that reaches the try block (cleanup only when the runtime
handle exists — zero calls when construction failed — plus unconditional
ignore-errors temp-directory removal), but when Play().load raises on line
361 BEFORE the try, run_module performs no teardown at all (no cleanup, no
temp-directory removal) and propagates; run_playbook's teardown is NOT
guarded by a presence check on the executor: it performs exactly one cleanup
call only when the executor was constructed, never removes a temp
directory, and when the executor is absent the cleanup expression itself
raises instead of tearing down (refuted original in
`c2_counterexample`). -/
theorem c2_theorem :
    (∀ (l c r : Bool),
      (run_module l c r).cleanupCalls = (if l || c then 0 else 1) ∧
      (run_module l c r).tmpdirRemoved = !l ∧
      (l = true → (run_module l c r).raised ≠ none)) ∧
    (∀ (fileContent : Option String) (cb c r : Bool),
      (run_playbook fileContent cb c r).cleanupCalls =
        (if pbConstructed fileContent c then 1 else 0) ∧
      (run_playbook fileContent cb c r).tmpdirRemoved = false ∧
      (pbConstructed fileContent c = false →
        (run_playbook fileContent cb c r).raised ≠ none)) := by
  constructor
  · intro l c r
    cases l <;> cases c <;> cases r <;> exact ⟨rfl, rfl, by decide⟩
  · intro fileContent cb c r
    refine ⟨?_, ?_, ?_⟩ <;>
      cases hpc : pbConstructed fileContent c <;>
      simp [run_playbook, hpc]

/-- C2 counterexample: on the safety-rejection path (playbook text flagged
by the filter) the executor is never constructed, so run_playbook's finally
block makes zero cleanup calls and raises; run_playbook removes no temp
directory even on a successful run; run_module removes it when the try is
reached but performs zero teardown when the eager task parse of Play().load
raises before the try. -/
theorem c2_counterexample :
    (run_playbook (some "echo \x7b\x7b vault_password \x7d\x7d") true false false).cleanupCalls
      = 0 ∧
    (run_playbook (some "echo \x7b\x7b vault_password \x7d\x7d") true false false).raised =
      some "AttributeError: NoneType has no attribute _tqm" ∧
    (run_playbook (some "- hosts: all\n  tasks: []\n") true false false).cleanupCalls = 1 ∧
    (run_playbook (some "- hosts: all\n  tasks: []\n") true false false).tmpdirRemoved
      = false ∧
    (run_module false false false).tmpdirRemoved = true ∧
    (run_module true false false).cleanupCalls = 0 ∧
    (run_module true false false).tmpdirRemoved = false := by decide

/-- C2 witness: the teardown characterization applied on run_playbook's
rejection path (flagged content, callback with attributes, no constructor
or run failure) and on run_module's failing-load path. -/
theorem c2_witness :
    pbConstructed (some "ping \x7b\x7b ansible_ssh_pass \x7d\x7d") false = false ∧
    (run_playbook (some "ping \x7b\x7b ansible_ssh_pass \x7d\x7d") true false false).cleanupCalls
      = 0 ∧
    (run_playbook (some "ping \x7b\x7b ansible_ssh_pass \x7d\x7d") true false false).raised
      ≠ none ∧
    (run_module true false false).raised ≠ none := by
  refine ⟨by decide, ?_, ?_, ?_⟩
  · have h := (c2_theorem.2 (some "ping \x7b\x7b ansible_ssh_pass \x7d\x7d") true false false).1
    rw [h]
    decide
  · exact (c2_theorem.2 (some "ping \x7b\x7b ansible_ssh_pass \x7d\x7d") true false
      false).2.2 (by decide)
  · exact (c2_theorem.1 true false false).2.2 rfl

/-- C9: run_module dispatches without ever invoking the Variable Safety
Filter — its event trace is exactly one dispatch of the given module and
args (so deny-listed names in module_args reach execution); each of
run_cmd, run_modules, run_script, run_copy and run_playbook scans its input
first; and the WebSocket endpoint forwards the user-supplied cmd string
verbatim into run_module("shell", ...). -/
theorem c9_theorem :
    (∀ (n a h : String), run_module_events n a h = [ExecEvent.dispatchModule n a h]) ∧
    (∀ (c h : String), (run_cmd_events c h).head? = some (ExecEvent.scan c)) ∧
    (∀ (c m h : String), (run_modules_events c m h).head? = some (ExecEvent.scan c)) ∧
    (∀ (c h : String), (run_script_events c h).head? = some (ExecEvent.scan c)) ∧
    (∀ (c h : String), (run_copy_events c h).head? = some (ExecEvent.scan c)) ∧
    (∀ (y c : String), (run_playbook_events y c).head? = some (ExecEvent.scan c)) ∧
    (∀ (m : WsMsg) (cmd : String), m.cmd = some cmd →
      websocket_endpoint_events m =
        [ExecEvent.dispatchModule "shell" cmd (m.hostname.getD "test")]) := by
  refine ⟨fun n a h => rfl, fun c h => rfl, fun c m h => rfl, fun c h => rfl,
    fun c h => rfl, fun y c => rfl, ?_⟩
  intro m cmd hc
  simp [websocket_endpoint_events, run_module_events, hc]

/-- C9 witness: a websocket message whose cmd references a deny-listed
variable is still dispatched verbatim to the shell module. -/
theorem c9_witness :
    websocket_endpoint_events
      ⟨some "git", some "192.168.5.2", some 22, some "pw",
       some "cat \x7b\x7b ansible_ssh_pass \x7d\x7d"⟩ =
      [ExecEvent.dispatchModule "shell" "cat \x7b\x7b ansible_ssh_pass \x7d\x7d" "git"] :=
  c9_theorem.2.2.2.2.2.2
    ⟨some "git", some "192.168.5.2", some 22, some "pw",
     some "cat \x7b\x7b ansible_ssh_pass \x7d\x7d"⟩
    "cat \x7b\x7b ansible_ssh_pass \x7d\x7d" rfl

/-! ### Facts-summarizer theorems -/

theorem exceptIsOk_bind {α β : Type} (x : Except String α) (f : α → Except String β)
    (h : exceptIsOk (x >>= f) = true) : ∃ a, x = Except.ok a ∧ exceptIsOk (f a) = true := by
  cases x with
  | ok a => exact ⟨a, rfl, h⟩
  | error e => simp [exceptIsOk, Bind.bind, Except.bind] at h

/-- C7 (amended): a missing field read by direct indexing is NOT surfaced as
the "unknown" sentinel — summarizeOne never succeeds on a facts payload
lacking ansible_product_name (the KeyError propagates out of
get_server_info, shown in `c7_counterexample`); the explicit "unknown"
sentinel exists only for the per-interface address fields ipv4,
ipv4_secondaries and ipv6, while the remaining per-interface fields become
None via .get. -/
theorem c7_theorem :
    (∀ (host : String) (facts : JObj), JObj.get facts "ansible_product_name" = none →
      exceptIsOk (summarizeOne host facts) = false) ∧
    Except.map
      (fun x => x.1.map (fun i => (i.server_model, i.interfaces.map
        (fun t => (t.network_card_ipv4, t.network_card_ipv4_secondaries,
                   t.network_card_ipv6, t.network_card_mac)))))
      (get_server_info cbFacts) =
      Except.ok [(JVal.str "PowerEdge R740",
        [(JVal.str "unknown", JVal.str "unknown",
          JVal.obj (JObjOf [("address", JVal.str "fe80::1")]),
          some (JVal.str "00:16:3e:00:00:01"))])] := by
  constructor
  · intro host facts hnone
    cases hok : exceptIsOk (summarizeOne host facts) with
    | false => rfl
    | true =>
      exfalso
      unfold summarizeOne at hok
      obtain ⟨v1, h1, hok⟩ := exceptIsOk_bind _ _ hok
      obtain ⟨v2, h2, hok⟩ := exceptIsOk_bind _ _ hok
      obtain ⟨v3, h3, hok⟩ := exceptIsOk_bind _ _ hok
      obtain ⟨v4, h4, hok⟩ := exceptIsOk_bind _ _ hok
      obtain ⟨v5, h5, hok⟩ := exceptIsOk_bind _ _ hok
      obtain ⟨v6, h6, hok⟩ := exceptIsOk_bind _ _ hok
      obtain ⟨v7, h7, hok⟩ := exceptIsOk_bind _ _ hok
      obtain ⟨v8, h8, hok⟩ := exceptIsOk_bind _ _ hok
      obtain ⟨v9, h9, hok⟩ := exceptIsOk_bind _ _ hok
      obtain ⟨v10, h10, hok⟩ := exceptIsOk_bind _ _ hok
      obtain ⟨v11, h11, hok⟩ := exceptIsOk_bind _ _ hok
      obtain ⟨v12, h12, hok⟩ := exceptIsOk_bind _ _ hok
      unfold factsGet at h12
      rw [hnone] at h12
      exact absurd h12 (by simp)
  · rfl

/-- C7 counterexample: an ok-bucket record whose facts payload carries every
field read before ansible_product_name but lacks ansible_product_name
itself: get_server_info raises KeyError('ansible_product_name') — it does
not produce a HostInfoRecord with server_model = "unknown". -/
theorem c7_counterexample :
    JObj.get factsNoModel "ansible_product_name" = none ∧
    get_server_info cbNoModel = Except.error "KeyError: ansible_product_name" :=
  ⟨rfl, rfl⟩

/-- C7 witness: the amended theorem applied to the concrete product-less
facts payload. -/
theorem c7_witness :
    JObj.get factsNoModel "ansible_product_name" = none ∧
    exceptIsOk (summarizeOne "web1" factsNoModel) = false :=
  ⟨rfl, c7_theorem.1 "web1" factsNoModel rfl⟩
